import Mathlib

/-!
# Verification of the auraxium entity-resolution and caching subsystem

Shallow embedding of `src/auraxium/base.py` (entity identity, construction,
the `Cached`/`Named` resolution protocol with fallback tables) and of
`src/auraxium/ps2/_character.py` (the `Character.get_by_name` override),
together with a model of the TLRU cache whose implementation module is not
part of the sources (it is modelled from the specification).
-/

set_option autoImplicit false

namespace Auraxium

/-! ## Payload values

Census payloads are JSON-ish dictionaries whose leaves, as far as the base
layer is concerned, are strings or integers.  A payload is an association
list from string keys to values, mirroring the Python `dict`. -/

inductive PyVal where
  | vStr : String → PyVal
  | vInt : Int → PyVal
deriving Repr, DecidableEq

abbrev Payload := List (String × PyVal)

/-- Dictionary lookup `data[k]`, as an option (a `KeyError` corresponds to
`none`). -/
def Payload.find? : Payload → String → Option PyVal
  | [], _ => none
  | (k, v) :: rest, key => if k = key then some v else Payload.find? rest key

/-- Python `str.lower()` (the keys in question are ASCII). -/
def lowerStr (s : String) : String := String.mk (s.data.map Char.toLower)

/-- Value of a non-empty all-digit character run, `none` otherwise. -/
def digitsVal (l : List Char) : Option Nat :=
  match l with
  | [] => none
  | _ =>
    if l.all Char.isDigit then
      some (l.foldl (fun acc c => acc * 10 + (c.toNat - 48)) 0)
    else none

/-- Parse an optionally `-`-signed decimal integer. -/
def parseIntChars : List Char → Option Int
  | '-' :: rest => (digitsVal rest).map (fun n => -(n : Int))
  | l => (digitsVal l).map (fun n => (n : Int))

/-- Python `int(x)` on a payload value: an integer is returned unchanged, a
string is parsed as a decimal integer and raises `ValueError` (here `none`)
when it is not numeric. -/
def pyToInt : PyVal → Option Int
  | .vInt n => some n
  | .vStr s => parseIntChars s.data

/-! ## Errors

The error taxonomy visible to the base layer: raw Python `KeyError` and
`ValueError`, and the library's own `PayloadError` (from
`auraxium.errors`). -/

inductive PyError where
  | keyError : String → PyError
  | valueError : String → PyError
  | payloadError : String → PyError
deriving Repr, DecidableEq

/-- Whether an error is the library's `PayloadError` (as opposed to an
unclassified `KeyError`/`ValueError`). -/
def PyError.isPayloadError : PyError → Bool
  | .payloadError _ => true
  | _ => false

/-! ## The class hierarchy

`Ps2Object`, `Cached` and `Named` are abstract (`abc.ABCMeta`); the
instantiable entity classes found in the sources are `Title`, `Character`,
`Outfit` (subclasses of `Named`) and `OutfitMember` (a subclass of
`Cached`). -/

inductive PyClass where
  | ps2Object
  | cached
  | named
  | title
  | character
  | outfit
  | outfitMember
deriving Repr, DecidableEq

/-- The inheritance chain of each class, most derived first (the class
itself included), as used by Python's `isinstance`. -/
def PyClass.ancestors : PyClass → List PyClass
  | .ps2Object => [.ps2Object]
  | .cached => [.cached, .ps2Object]
  | .named => [.named, .cached, .ps2Object]
  | .title => [.title, .named, .cached, .ps2Object]
  | .character => [.character, .named, .cached, .ps2Object]
  | .outfit => [.outfit, .named, .cached, .ps2Object]
  | .outfitMember => [.outfitMember, .cached, .ps2Object]

/-- `isinstance(value, target)` for a value whose concrete class is `c`. -/
def isinstance (c target : PyClass) : Bool :=
  decide (target ∈ c.ancestors)

/-- The classes that can actually be instantiated (the abstract base classes
`Ps2Object`, `Cached` and `Named` cannot). -/
def PyClass.isConcrete : PyClass → Bool
  | .title => true
  | .character => true
  | .outfit => true
  | .outfitMember => true
  | _ => false

/-! ## Entity instances

An entity carries its concrete class, its numeric id, its localised names
(the part of the built dataclass the base layer reads back), and a `token`
that models Python object identity: each construction allocates a fresh
token, so two instances are "the same object" exactly when their tokens
agree. -/

structure Instance where
  cls : PyClass
  id : Int
  names : List (String × String)
  token : Nat
deriving Repr, DecidableEq

/-- `Named.name(locale)`: the localised name, `none` when the locale is
absent from the data (Python raises `ValueError` there). -/
def Instance.nameOf (i : Instance) (locale : String) : Option String :=
  i.names.lookup locale

/-- `Ps2Object.__eq__`: `isinstance(value, self.__class__) and
self.id == value.id`. -/
def pyEq (a b : Instance) : Bool :=
  isinstance b.cls a.cls && a.id == b.id

/-- `Ps2Object.__hash__`: `hash((self.__class__, self.id))`, modelled as the
pair itself. -/
def pyHash (a : Instance) : PyClass × Int :=
  (a.cls, a.id)

/-! ## `Ps2Object.__init__`

The construction protocol of `base.py`:

* `id_ = int(data[self.id_field])` — executed *outside* the
  `try`/`except`, so an absent key raises a raw `KeyError` and a
  non-numeric value a raw `ValueError`;
* `self._build_dataclass(data)` — runs inside the `try`, its `KeyError` and
  `ValueError` are converted to `PayloadError`;
* the leftover-key check `if data and (keys := filter(lambda k: '_join_'
  not in k, data.keys()))` — the `filter` object is truthy regardless of
  its contents, so the warning fires whenever any leftover key remains.

The per-type `_build_dataclass` is abstract; the embedding takes it as a
parameter returning the localised names read back by the base layer and the
leftover (unconsumed) payload, or a build-time `KeyError`/`ValueError`. -/

inductive BuildError where
  | keyError : String → BuildError
  | valueError : String → BuildError
deriving Repr, DecidableEq

abbrev BuildFn := Payload → Except BuildError (List (String × String) × Payload)

/-- Whether `pat` is an initial segment of `l`. -/
def leadsWith : List Char → List Char → Bool
  | _, [] => true
  | [], _ :: _ => false
  | c :: cs, d :: ds => c == d && leadsWith cs ds

/-- Whether `pat` occurs as a contiguous run inside `l`. -/
def hasSub : List Char → List Char → Bool
  | [], pat => pat.isEmpty
  | c :: cs, pat => leadsWith (c :: cs) pat || hasSub cs pat

/-- Python `'_join_' in k`. -/
def isJoinKey (k : String) : Bool :=
  hasSub k.data "_join_".data

/-- Result of a successful `Ps2Object.__init__`: the extracted id, the
localised names, the leftover payload keys and whether the
unexpected-payload warning was emitted. -/
structure ObjInit where
  id : Int
  names : List (String × String)
  leftover : Payload
  warned : Bool
deriving Repr, DecidableEq

/-- `Ps2Object.__init__` (construction and validation). -/
def objectInit (idField : String) (build : BuildFn) (data : Payload) :
    Except PyError ObjInit :=
  match Payload.find? data idField with
  | none => .error (.keyError idField)
  | some v =>
    match pyToInt v with
    | none => .error (.valueError "invalid literal for int")
    | some id =>
      match build data with
      | .error (.keyError k) =>
          .error (.payloadError ("Unable to populate due to a missing key: " ++ k))
      | .error (.valueError m) =>
          .error (.payloadError ("Unable to instantiate instance from given payload: " ++ m))
      | .ok (names, leftover) =>
          .ok { id := id, names := names, leftover := leftover,
                warned := decide (leftover ≠ []) }

/-- What the comment above the warning in the source says the check is
meant to do: warn exactly when a leftover key that is not join-injected
remains. -/
def intendedWarn (leftover : Payload) : Bool :=
  (leftover.filter (fun kv => !isJoinKey kv.1)) != []

/-! ## The TLRU cache

Modelled from the spec: the cache implementation module
(`auraxium/cache.py` / `auraxium/_cache.py`, imported as `TLRUCache` by
`base.py`) is not among the sources.  Per the spec: a size-bounded,
recency-ordered keyed store with optional per-entry time-to-use; `add`
inserts/overwrites at most-recently-used and evicts the least recently used
beyond the bound; `get` returns a present entry whose age does not exceed
the ttu (ttu 0 meaning no age limit), refreshing its recency, and
physically removes an expired entry; `clear` empties the store.  Time is an
explicit `Nat` parameter. -/

structure CEntry (V : Type) where
  val : V
  added : Nat
  visited : Nat
deriving Repr, DecidableEq

structure TLRUCache (K V : Type) where
  size : Nat
  ttu : Nat
  entries : List (K × CEntry V)
deriving Repr, DecidableEq

namespace TLRUCache

variable {K V : Type} [DecidableEq K]

/-- First entry stored under a key, if any (`entries` is ordered most
recently used first). -/
def lookupE : List (K × CEntry V) → K → Option (CEntry V)
  | [], _ => none
  | (k, e) :: rest, key => if k = key then some e else lookupE rest key

/-- Remove every entry stored under a key. -/
def eraseKey (l : List (K × CEntry V)) (key : K) : List (K × CEntry V) :=
  l.filter (fun kv => decide (kv.1 ≠ key))

/-- An entry is expired when a nonzero ttu is exceeded by its age. -/
def isExpired (ttu now added : Nat) : Bool :=
  ttu != 0 && decide (ttu < now - added)

/-- `add(key, value)`: insert/overwrite at most-recently-used, then evict
least-recently-used entries beyond the size bound. -/
def add (c : TLRUCache K V) (now : Nat) (key : K) (v : V) : TLRUCache K V :=
  { c with entries :=
      ((key, ⟨v, now, now⟩) :: eraseKey c.entries key).take c.size }

/-- `get(key)`: a hit returns the value and refreshes recency; an expired
entry is removed and reported absent. -/
def get (c : TLRUCache K V) (now : Nat) (key : K) :
    Option V × TLRUCache K V :=
  match lookupE c.entries key with
  | none => (none, c)
  | some e =>
    if isExpired c.ttu now e.added then
      (none, { c with entries := eraseKey c.entries key })
    else
      (some e.val,
       { c with entries :=
           (key, { e with visited := now }) :: eraseKey c.entries key })

/-- `clear()`: empty the store. -/
def clear (c : TLRUCache K V) : TLRUCache K V :=
  { c with entries := [] }

end TLRUCache

/-! ## Cache keys and protocol state

A `Named` type's cache is keyed both by numeric id and by
locale-qualified-name strings; the Python dict holds both `int` and `str`
keys. -/

inductive CKey where
  | kid : Int → CKey
  | kname : String → CKey
deriving Repr, DecidableEq

/-- Whether a key is a by-name (string) key. -/
def CKey.isName : CKey → Bool
  | .kid _ => false
  | .kname _ => true

/-- The mutable state threaded through the resolution protocol: the type's
shared cache, the Python object-identity allocator, and the number of
Request Executor invocations performed so far. -/
structure PState where
  cache : TLRUCache CKey Instance
  nextToken : Nat
  execCalls : Nat
deriving Repr, DecidableEq

/-- `Cached.__init__`: run `Ps2Object.__init__`, then register the new
instance in the type's shared cache under its numeric id
(`self._cache.add(self.id, self)`). -/
def cachedInit (cls : PyClass) (idField : String) (build : BuildFn)
    (now : Nat) (data : Payload) (st : PState) :
    Except PyError (Instance × PState) :=
  match objectInit idField build data with
  | .error e => .error e
  | .ok r =>
    let inst : Instance :=
      { cls := cls, id := r.id, names := r.names, token := st.nextToken }
    .ok (inst,
      { st with
        cache := st.cache.add now (.kid inst.id) inst
        nextToken := st.nextToken + 1 })

/-- `Named.__init__`: forward to `Cached.__init__`; when a locale was
given, additionally register the instance under
`locale + "_" + self.name(locale=locale).lower()`. -/
def namedInit (cls : PyClass) (idField : String) (build : BuildFn)
    (now : Nat) (locale : Option String) (data : Payload) (st : PState) :
    Except PyError (Instance × PState) :=
  match cachedInit cls idField build now data st with
  | .error e => .error e
  | .ok (inst, st1) =>
    match locale with
    | none => .ok (inst, st1)
    | some loc =>
      match inst.nameOf loc with
      | none => .error (.valueError ("Invalid locale: " ++ loc))
      | some n =>
        .ok (inst,
          { st1 with
            cache := st1.cache.add now (.kname (loc ++ "_" ++ lowerStr n)) inst })

/-- The list comprehension `[cls(i, client=client) for i in
extract_payload(matches, cls.collection)]`: construct every returned
payload in order, each construction registering itself in the cache.  The
first construction failure aborts the whole comprehension. -/
def constructAll (cls : PyClass) (idField : String) (build : BuildFn)
    (now : Nat) : List Payload → PState → Except PyError (List Instance × PState)
  | [], st => .ok ([], st)
  | p :: rest, st =>
    match cachedInit cls idField build now p st with
    | .error e => .error e
    | .ok (inst, st1) =>
      match constructAll cls idField build now rest st1 with
      | .error e => .error e
      | .ok (l, st2) => .ok (inst :: l, st2)

/-- `Ps2Object.find` as issued by `get_by_id`: one Request Executor
invocation returning raw payloads, then construction of each result. -/
def findById (cls : PyClass) (idField : String) (build : BuildFn)
    (now : Nat) (payloads : List Payload) (st : PState) :
    Except PyError (List Instance × PState) :=
  constructAll cls idField build now payloads
    { st with execCalls := st.execCalls + 1 }

/-- `Ps2Object.get_by_id`: issue the live by-id query (`find` with
`limit 1`); then, when the type declares a `_fallback` table, the table is
consulted — and, as written in the source, a type *with* a table but
*without* an entry for this id falls through to `return None` even when
the live query succeeded (`elif results` is tied to the no-table branch).
`exec` is the Request Executor's (already limited) response for the by-id
query. -/
def psGetById (cls : PyClass) (idField : String) (build : BuildFn)
    (now : Nat) (fallback : Option (List (Int × Payload)))
    (exec : Int → List Payload) (id : Int) (st : PState) :
    Except PyError (Option Instance × PState) :=
  match findById cls idField build now (exec id) st with
  | .error e => .error e
  | .ok (results, st1) =>
    match fallback with
    | some fb =>
      match fb.lookup id with
      | some data =>
        match results with
        | r :: _ => .ok (some r, st1)
        | [] =>
          match cachedInit cls idField build now data st1 with
          | .error e => .error e
          | .ok (inst, st2) => .ok (some inst, st2)
      | none => .ok (none, st1)
    | none =>
      match results with
      | r :: _ => .ok (some r, st1)
      | [] => .ok (none, st1)

/-- `Cached.get_by_id`: consult the type's TLRU cache first; a hit returns
the existing instance with no Request Executor call, a miss falls back to
`Ps2Object.get_by_id`. -/
def cachedGetById (cls : PyClass) (idField : String) (build : BuildFn)
    (now : Nat) (fallback : Option (List (Int × Payload)))
    (exec : Int → List Payload) (id : Int) (st : PState) :
    Except PyError (Option Instance × PState) :=
  match st.cache.get now (.kid id) with
  | (some inst, c1) => .ok (some inst, { st with cache := c1 })
  | (none, c1) =>
      psGetById cls idField build now fallback exec id { st with cache := c1 }

/-- `Named.get_by_name`: consult the cache under
`locale + "_" + name.lower()`; on a miss, issue one case-insensitive
Request Executor query for the name and construct the single result with
the locale (an empty response, `NotFoundError`, yields `None`). -/
def namedGetByName (cls : PyClass) (idField : String) (build : BuildFn)
    (now : Nat) (exec : String → List Payload) (name locale : String)
    (st : PState) : Except PyError (Option Instance × PState) :=
  let key := locale ++ "_" ++ lowerStr name
  match st.cache.get now (.kname key) with
  | (some inst, c1) => .ok (some inst, { st with cache := c1 })
  | (none, c1) =>
    let st1 : PState :=
      { st with cache := c1, execCalls := st.execCalls + 1 }
    match exec name with
    | [] => .ok (none, st1)
    | p :: _ =>
      match namedInit cls idField build now (some locale) p st1 with
      | .error e => .error e
      | .ok (inst, st2) => .ok (some inst, st2)

/-- `Character.get_by_name` (the deprecated override in
`ps2/_character.py`): the cache key is `'_' + name.lower()` — the locale is
*not* part of the key — and the constructed instance is built without a
locale argument, so it is never registered under any name key. -/
def characterGetByName (idField : String) (build : BuildFn) (now : Nat)
    (exec : String → List Payload) (name locale : String) (st : PState) :
    Except PyError (Option Instance × PState) :=
  let key := "_" ++ lowerStr name
  match st.cache.get now (.kname key) with
  | (some inst, c1) => .ok (some inst, { st with cache := c1 })
  | (none, c1) =>
    let st1 : PState :=
      { st with cache := c1, execCalls := st.execCalls + 1 }
    match exec (lowerStr name) with
    | [] => .ok (none, st1)
    | p :: _ =>
      match namedInit .character idField build now none p st1 with
      | .error e => .error e
      | .ok (inst, st2) => .ok (some inst, st2)

/-- `Cached.alter_cache`: reject a size below 1 with a `ValueError` before
touching the cache; otherwise clear the cache, set the new size, and set
the ttu when one was given.  The returned cache is the state after the
call, unchanged when the error is raised. -/
def alterCache (c : TLRUCache CKey Instance) (size : Int)
    (ttu : Option Nat) : Option PyError × TLRUCache CKey Instance :=
  if size < 1 then
    (some (.valueError (toString size ++ " is not a valid cache size")), c)
  else
    let c1 := c.clear
    let c2 := { c1 with size := size.toNat }
    match ttu with
    | none => (none, c2)
    | some t => (none, { c2 with ttu := t })

/-! ## Concrete fixtures

A representative concrete `_build_dataclass`: it reads the localised name
from the `name` field and consumes the id field and the name field, leaving
every other key in the payload.  Concrete payloads, instances and protocol
states used by witnesses and counterexamples. -/

/-- A concrete `_build_dataclass`: consume `idField` and `name`, expose the
`name` value as the English localised name. -/
def mkBuild (idField : String) : BuildFn := fun data =>
  match Payload.find? data "name" with
  | some (.vStr s) =>
      .ok ([("en", s)],
        data.filter (fun kv => decide (kv.1 ≠ idField) && decide (kv.1 ≠ "name")))
  | _ => .error (.keyError "name")

/-- A fresh protocol state: an empty character cache (size 256, ttu 30). -/
def st0 : PState := ⟨⟨256, 30, []⟩, 0, 0⟩

/-- Live payload for character id 2. -/
def pLive : Payload := [("character_id", .vInt 2), ("name", .vStr "Bob")]

/-- Fallback payload for character id 1. -/
def pFall : Payload := [("character_id", .vInt 1), ("name", .vStr "Fall")]

/-- Payload for a character named `Admin` with id 7. -/
def pAdmin : Payload := [("character_id", .vInt 7), ("name", .vStr "Admin")]

/-- The entity built from `pLive` in a fresh state. -/
def instLive : Instance := ⟨.character, 2, [("en", "Bob")], 0⟩

/-- The entity built from `pAdmin` in a fresh state. -/
def instAdmin0 : Instance := ⟨.character, 7, [("en", "Admin")], 0⟩

/-- The entity rebuilt from `pAdmin` on the second executor round-trip. -/
def instAdmin1 : Instance := ⟨.character, 7, [("en", "Admin")], 1⟩

/-- State after the live query for id 2 constructed `instLive`. -/
def stC1 : PState := ⟨⟨256, 30, [(.kid 2, ⟨instLive, 0, 0⟩)]⟩, 1, 1⟩

/-- State after the first `Character.get_by_name` call. -/
def stC3a : PState := ⟨⟨256, 30, [(.kid 7, ⟨instAdmin0, 0, 0⟩)]⟩, 1, 1⟩

/-- State after the second `Character.get_by_name` call. -/
def stC3b : PState := ⟨⟨256, 30, [(.kid 7, ⟨instAdmin1, 0, 0⟩)]⟩, 2, 2⟩

/-- A character instance sitting in the cache. -/
def instBob : Instance := ⟨.character, 7, [("en", "Bob")], 0⟩

/-- A state whose cache holds `instBob` under id 7 (inserted at time 0). -/
def stHit : PState := ⟨⟨256, 30, [(.kid 7, ⟨instBob, 0, 0⟩)]⟩, 1, 0⟩

/-- A small title instance for the cache counterexamples. -/
def instT : Instance := ⟨.title, 1, [("en", "T")], 0⟩

/-- A cache of size 3 and no ttu holding `instT` under id 1. -/
def ccDemo : TLRUCache CKey Instance := ⟨3, 0, [(.kid 1, ⟨instT, 0, 0⟩)]⟩

/-- Whether a cache holds any by-name (string-keyed) entry. -/
def hasNameKey (c : TLRUCache CKey Instance) : Bool :=
  c.entries.any (fun kv => kv.1.isName)

/-- State after constructing `instAdmin0` from `pAdmin` in `st0` without a
locale (no executor call involved). -/
def stReg : PState := ⟨⟨256, 30, [(.kid 7, ⟨instAdmin0, 0, 0⟩)]⟩, 1, 0⟩

/-- `stHit`'s cache after the hit at time 5 refreshed the entry's
recency. -/
def cHit1 : TLRUCache CKey Instance :=
  ⟨256, 30, [(.kid 7, ⟨instBob, 0, 5⟩)]⟩

/-! ## Helper lemmas -/

/-- Among instantiable (concrete) classes, `isinstance` degenerates to
class equality: no concrete entity class subclasses another concrete
entity class in the sources. -/
theorem isinstance_concrete (c t : PyClass) (hc : c.isConcrete = true)
    (ht : t.isConcrete = true) : isinstance c t = true ↔ c = t := by
  cases c <;> cases t <;> revert hc ht <;> decide

/-! ## C4 — equality and hashing by (type, id) -/

/-- C4: two entities of instantiable classes compare equal iff they have
the same concrete class and the same id; equality is symmetric; and the
hash is exactly the pair (type, id), so two hashes agree iff class and id
agree. -/
theorem ps2object_eq_iff_same_class_and_id (a b : Instance)
    (ha : a.cls.isConcrete = true) (hb : b.cls.isConcrete = true) :
    (pyEq a b = true ↔ (a.cls = b.cls ∧ a.id = b.id)) ∧
    pyEq a b = pyEq b a ∧
    (pyHash a = pyHash b ↔ (a.cls = b.cls ∧ a.id = b.id)) := by
  have key : ∀ x y : Instance, x.cls.isConcrete = true →
      y.cls.isConcrete = true →
      (pyEq x y = true ↔ (x.cls = y.cls ∧ x.id = y.id)) := by
    intro x y hx hy
    unfold pyEq
    rw [Bool.and_eq_true, beq_iff_eq, isinstance_concrete y.cls x.cls hy hx]
    constructor
    · rintro ⟨h1, h2⟩; exact ⟨h1.symm, h2⟩
    · rintro ⟨h1, h2⟩; exact ⟨h1.symm, h2⟩
  refine ⟨key a b ha hb, ?_, ?_⟩
  · have h1 := key a b ha hb
    have h2 := key b a hb ha
    cases hab : pyEq a b <;> cases hba : pyEq b a
    · rfl
    · rcases h2.mp hba with ⟨hc, hi⟩
      have : pyEq a b = true := h1.mpr ⟨hc.symm, hi.symm⟩
      rw [hab] at this; exact absurd this (by simp)
    · rcases h1.mp hab with ⟨hc, hi⟩
      have : pyEq b a = true := h2.mpr ⟨hc.symm, hi.symm⟩
      rw [hba] at this; exact absurd this (by simp)
    · rfl
  · unfold pyHash
    constructor
    · intro h
      exact ⟨congrArg Prod.fst h, congrArg Prod.snd h⟩
    · rintro ⟨h1, h2⟩; rw [h1, h2]

/-- Witness for C4 at two concrete title instances that differ only in
their object identity. -/
theorem ps2object_eq_iff_same_class_and_id_witness :
    (PyClass.isConcrete .title = true) ∧
    ((pyEq ⟨.title, 1, [], 0⟩ ⟨.title, 1, [], 5⟩ = true ↔
        ((Instance.mk .title 1 [] 0).cls = (Instance.mk .title 1 [] 5).cls ∧
         (Instance.mk .title 1 [] 0).id = (Instance.mk .title 1 [] 5).id)) ∧
     pyEq ⟨.title, 1, [], 0⟩ ⟨.title, 1, [], 5⟩
       = pyEq ⟨.title, 1, [], 5⟩ ⟨.title, 1, [], 0⟩ ∧
     (pyHash ⟨.title, 1, [], 0⟩ = pyHash ⟨.title, 1, [], 5⟩ ↔
        ((Instance.mk .title 1 [] 0).cls = (Instance.mk .title 1 [] 5).cls ∧
         (Instance.mk .title 1 [] 0).id = (Instance.mk .title 1 [] 5).id))) :=
  ⟨by decide,
   ps2object_eq_iff_same_class_and_id ⟨.title, 1, [], 0⟩ ⟨.title, 1, [], 5⟩
     (by decide) (by decide)⟩

/-! ## C5 — error classification of the id extraction -/

/-- C5 counterexample: a payload without its id field makes construction
fail with a raw `KeyError`, which is not a `PayloadError` — the id
extraction `int(data[self.id_field])` sits outside the `try`/`except`. -/
theorem ps2object_init_missing_id_not_payload_error :
    objectInit "character_id" (mkBuild "character_id") [("name", .vStr "x")]
      = .error (.keyError "character_id") ∧
    PyError.isPayloadError (.keyError "character_id") = false := by
  exact ⟨rfl, rfl⟩

/-- C5 amended: an absent id field raises an uncaught `KeyError`, a
non-numeric id value an uncaught `ValueError`; only failures inside the
dataclass build step are converted to `PayloadError`. -/
theorem ps2object_init_id_error_classes (idField : String) (build : BuildFn)
    (data : Payload) :
    (Payload.find? data idField = none →
      objectInit idField build data = .error (.keyError idField)) ∧
    (∀ v, Payload.find? data idField = some v → pyToInt v = none →
      objectInit idField build data
        = .error (.valueError "invalid literal for int")) ∧
    (∀ k, Payload.find? data idField = some (.vInt k) →
      ∀ e, build data = .error e →
      ∃ m, objectInit idField build data = .error (.payloadError m)) := by
  refine ⟨?_, ?_, ?_⟩
  · intro h; simp [objectInit, h]
  · intro v hv hto; simp [objectInit, hv, hto]
  · intro k hk e he
    cases e with
    | keyError s =>
        exact ⟨"Unable to populate due to a missing key: " ++ s,
          by simp [objectInit, hk, pyToInt, he]⟩
    | valueError s =>
        exact ⟨"Unable to instantiate instance from given payload: " ++ s,
          by simp [objectInit, hk, pyToInt, he]⟩

/-- Witness for C5's amended statement: the `KeyError` branch at a payload
with no id field, and the `ValueError` branch at a non-numeric id. -/
theorem ps2object_init_id_error_classes_witness :
    objectInit "character_id" (mkBuild "character_id") [] =
      .error (.keyError "character_id") ∧
    objectInit "character_id" (mkBuild "character_id")
      [("character_id", .vStr "abc"), ("name", .vStr "x")]
      = .error (.valueError "invalid literal for int") :=
  ⟨(ps2object_init_id_error_classes "character_id"
      (mkBuild "character_id") []).1 rfl,
   (ps2object_init_id_error_classes "character_id" (mkBuild "character_id")
      [("character_id", .vStr "abc"), ("name", .vStr "x")]).2.1
      (.vStr "abc") rfl rfl⟩

/-! ## C9 — the leftover-key warning -/

/-- C9: at a payload whose only leftover key is the join-injected
`foo_join_bar`, construction succeeds but the warning fires anyway
(`warned = true`), although the intended check — leftover keys excluding
join-injected ones — finds nothing: the source tests the truthiness of a
`filter` object, which is always truthy. -/
theorem join_only_leftover_still_warns :
    objectInit "title_id" (mkBuild "title_id")
      [("title_id", .vInt 1), ("name", .vStr "x"), ("foo_join_bar", .vStr "z")]
      = .ok { id := 1, names := [("en", "x")],
              leftover := [("foo_join_bar", .vStr "z")], warned := true } ∧
    intendedWarn [("foo_join_bar", .vStr "z")] = false := by
  constructor
  · rfl
  · decide

/-! ## C6 / C7 — resizing the cache -/

/-- C6 counterexample: `ccDemo` holds one entry, well within the new bound
5, yet after `alter_cache(5)` the entry is gone — the source clears the
cache unconditionally before applying the new size. -/
theorem alter_cache_resize_clears_counterexample :
    (ccDemo.get 0 (.kid 1)).1 = some instT ∧
    ccDemo.entries.length ≤ 5 ∧
    alterCache ccDemo 5 none = (none, ⟨5, 0, []⟩) ∧
    (((alterCache ccDemo 5 none).2).get 0 (.kid 1)).1 = none := by
  refine ⟨rfl, by decide, rfl, rfl⟩

/-- C6 amended: for any `new_size ≥ 1`, `alter_cache` succeeds, sets the
size bound to `new_size` and the ttu when one is given, and clears the
cache entirely — no previously stored entry survives the call. -/
theorem alter_cache_sets_bound_and_clears (c : TLRUCache CKey Instance)
    (size : Int) (ttu : Option Nat) (h : 1 ≤ size) :
    alterCache c size ttu
      = (none, ⟨size.toNat, ttu.getD c.ttu, []⟩) := by
  unfold alterCache TLRUCache.clear
  rw [if_neg (by omega)]
  cases ttu <;> rfl

/-- Witness for C6's amended statement at the concrete cache `ccDemo`. -/
theorem alter_cache_sets_bound_and_clears_witness :
    (1 : Int) ≤ 5 ∧
    alterCache ccDemo 5 none = (none, ⟨(5 : Int).toNat, ccDemo.ttu, []⟩) :=
  ⟨by decide, alter_cache_sets_bound_and_clears ccDemo 5 none (by decide)⟩

/-- C7: for any `new_size < 1`, `alter_cache` fails with the source's
`ValueError` (the spec's configuration error) and the cache — bound, ttu
and entries alike — is returned unchanged: the check precedes every
mutation. -/
theorem alter_cache_invalid_size_unchanged (c : TLRUCache CKey Instance)
    (size : Int) (ttu : Option Nat) (h : size < 1) :
    alterCache c size ttu
      = (some (.valueError (toString size ++ " is not a valid cache size")),
         c) := by
  unfold alterCache
  rw [if_pos h]

/-- Witness for C7: `resize(0)` on `ccDemo` errors and leaves the cache
untouched. -/
theorem alter_cache_invalid_size_unchanged_witness :
    (0 : Int) < 1 ∧
    alterCache ccDemo 0 none
      = (some (.valueError (toString (0 : Int) ++ " is not a valid cache size")),
         ccDemo) :=
  ⟨by decide, alter_cache_invalid_size_unchanged ccDemo 0 none (by decide)⟩

/-! ## Cache lemmas -/

/-- A freshly added entry is present and non-expired at the insertion
instant, provided the bound admits at least one entry. -/
theorem TLRUCache.get_add_self {K V : Type} [DecidableEq K]
    (c : TLRUCache K V) (now : Nat) (k : K) (v : V) (h : 1 ≤ c.size) :
    ((c.add now k v).get now k).1 = some v := by
  rcases c with ⟨size, ttu, entries⟩
  obtain ⟨m, rfl⟩ : ∃ m, size = m + 1 := ⟨size - 1, by simp at h; omega⟩
  simp [add, get, List.take_succ_cons, lookupE, isExpired, Nat.sub_self]

/-- A by-`get` hit leaves the entry present and still-hitting at the same
instant: the refresh touches recency only, not the insertion time. -/
theorem TLRUCache.get_hit_stable {K V : Type} [DecidableEq K]
    (c : TLRUCache K V) (now : Nat) (k : K) (v : V) (c1 : TLRUCache K V)
    (h : c.get now k = (some v, c1)) : (c1.get now k).1 = some v := by
  rcases c with ⟨size, ttu, entries⟩
  cases hl : lookupE entries k with
  | none => simp [get, hl] at h
  | some e =>
    cases hex : isExpired ttu now e.added with
    | true => simp [get, hl, hex] at h
    | false =>
      simp only [get, hl, hex, Bool.false_eq_true, if_false, Prod.mk.injEq,
        Option.some.injEq] at h
      obtain ⟨hv, hc⟩ := h
      subst hv
      subst hc
      simp [get, lookupE, hex]

/-- `lookupE` cannot produce a hit for a string key in a run of entries
none of which is string-keyed. -/
theorem lookupE_kname_none (l : List (CKey × CEntry Instance)) (s : String)
    (h : l.any (fun kv => kv.1.isName) = false) :
    TLRUCache.lookupE l (.kname s) = none := by
  induction l with
  | nil => rfl
  | cons kv rest ih =>
    obtain ⟨k, e⟩ := kv
    rw [List.any_cons, Bool.or_eq_false_iff] at h
    obtain ⟨h1, h2⟩ := h
    unfold TLRUCache.lookupE
    rw [if_neg, ih h2]
    intro heq
    rw [heq] at h1
    simp [CKey.isName] at h1

/-- `get` with a string key misses — and changes nothing — on a cache with
no by-name entry. -/
theorem get_kname_none (c : TLRUCache CKey Instance) (now : Nat) (s : String)
    (h : hasNameKey c = false) : c.get now (.kname s) = (none, c) := by
  unfold TLRUCache.get
  rw [lookupE_kname_none c.entries s h]

/-- Adding an id-keyed entry cannot introduce a by-name entry. -/
theorem hasNameKey_add_kid (c : TLRUCache CKey Instance) (now : Nat)
    (i : Int) (v : Instance) (h : hasNameKey c = false) :
    hasNameKey (c.add now (.kid i) v) = false := by
  unfold hasNameKey TLRUCache.add TLRUCache.eraseKey at *
  rw [Bool.eq_false_iff] at h ⊢
  intro hc
  apply h
  rw [List.any_eq_true] at hc ⊢
  obtain ⟨kv, hmem, hp⟩ := hc
  have hmem2 := List.take_subset _ _ hmem
  rcases List.mem_cons.mp hmem2 with h1 | h2
  · rw [h1] at hp; simp [CKey.isName] at hp
  · exact ⟨kv, (List.mem_filter.mp h2).1, hp⟩

/-- Successful `Cached.__init__` decomposed: the underlying
`Ps2Object.__init__` succeeded, the instance carries the extracted id and
names plus a fresh identity token, and the state change is exactly the
cache registration plus the token bump. -/
theorem cachedInit_ok_elim {cls : PyClass} {idField : String}
    {build : BuildFn} {now : Nat} {data : Payload} {st : PState}
    {inst : Instance} {st' : PState}
    (h : cachedInit cls idField build now data st = .ok (inst, st')) :
    ∃ r, objectInit idField build data = .ok r ∧
      inst = ⟨cls, r.id, r.names, st.nextToken⟩ ∧
      st' = { st with
              cache := st.cache.add now (.kid r.id) inst
              nextToken := st.nextToken + 1 } := by
  unfold cachedInit at h
  cases ho : objectInit idField build data with
  | error e => rw [ho] at h; simp at h
  | ok r =>
    rw [ho] at h
    simp only [Except.ok.injEq, Prod.mk.injEq] at h
    obtain ⟨h1, h2⟩ := h
    exact ⟨r, rfl, h1.symm, by rw [← h2, ← h1]⟩

/-- `namedInit` never touches the executor-call counter. -/
theorem namedInit_execCalls {cls : PyClass} {idField : String}
    {build : BuildFn} {now : Nat} {locale : Option String} {data : Payload}
    {st : PState} {inst : Instance} {st' : PState}
    (h : namedInit cls idField build now locale data st = .ok (inst, st')) :
    st'.execCalls = st.execCalls := by
  cases hc : cachedInit cls idField build now data st with
  | error e => simp [namedInit, hc] at h
  | ok p =>
    obtain ⟨i1, s1⟩ := p
    obtain ⟨r, _, _, hst⟩ := cachedInit_ok_elim hc
    have hs1 : s1.execCalls = st.execCalls := by rw [hst]
    cases locale with
    | none =>
      simp only [namedInit, hc, Except.ok.injEq, Prod.mk.injEq] at h
      rw [← h.2, hs1]
    | some loc =>
      cases hn : i1.nameOf loc with
      | none => simp [namedInit, hc, hn] at h
      | some n =>
        simp only [namedInit, hc, hn, Except.ok.injEq, Prod.mk.injEq] at h
        rw [← h.2, hs1]

/-! ## C8 — construction registers into the cache -/

/-- C8: a successful `Cached` construction changes the cache exactly by
registering the new instance under its numeric id; when the bound admits an
entry the instance is immediately retrievable by id; and a bulk `find`
returning this payload performs the same construction (one executor call
plus the registering construction). -/
theorem cached_init_registers (cls : PyClass) (idField : String)
    (build : BuildFn) (now : Nat) (data : Payload) (st : PState)
    (inst : Instance) (st' : PState)
    (h : cachedInit cls idField build now data st = .ok (inst, st')) :
    st'.cache = st.cache.add now (.kid inst.id) inst ∧
    (1 ≤ st.cache.size → (st'.cache.get now (.kid inst.id)).1 = some inst) ∧
    findById cls idField build now [data] st
      = .ok ([inst], { st' with execCalls := st'.execCalls + 1 }) := by
  obtain ⟨r, ho, hinst, hst⟩ := cachedInit_ok_elim h
  subst hst
  subst hinst
  refine ⟨rfl, ?_, ?_⟩
  · intro hsz
    exact TLRUCache.get_add_self st.cache now (.kid r.id) _ hsz
  · simp [findById, constructAll, cachedInit, ho]

/-- Witness for C8 at a concrete character payload in a fresh state. -/
theorem cached_init_registers_witness :
    stReg.cache = st0.cache.add 0 (.kid instAdmin0.id) instAdmin0 ∧
    (1 ≤ st0.cache.size →
      (stReg.cache.get 0 (.kid instAdmin0.id)).1 = some instAdmin0) ∧
    findById .character "character_id" (mkBuild "character_id") 0 [pAdmin] st0
      = .ok ([instAdmin0], { stReg with execCalls := stReg.execCalls + 1 }) :=
  cached_init_registers .character "character_id" (mkBuild "character_id")
    0 pAdmin st0 instAdmin0 stReg rfl

/-! ## C2 — cache-hit identity in `Cached.get_by_id` -/

/-- C2: when the cache holds a valid entry for the id, `Cached.get_by_id`
returns that stored instance itself, performs no Request Executor call,
and a second `get_by_id` at the same instant again returns the identical
instance with the executor-call count still unchanged. -/
theorem cached_get_by_id_hit_identity (cls : PyClass) (idField : String)
    (build : BuildFn) (now : Nat) (fallback : Option (List (Int × Payload)))
    (exec : Int → List Payload) (id : Int) (st : PState)
    (inst : Instance) (c1 : TLRUCache CKey Instance)
    (h : st.cache.get now (.kid id) = (some inst, c1)) :
    cachedGetById cls idField build now fallback exec id st
      = .ok (some inst, { st with cache := c1 }) ∧
    ({ st with cache := c1 } : PState).execCalls = st.execCalls ∧
    (∃ st2, cachedGetById cls idField build now fallback exec id
        { st with cache := c1 } = .ok (some inst, st2) ∧
      st2.execCalls = st.execCalls) := by
  refine ⟨?_, rfl, ?_⟩
  · unfold cachedGetById
    rw [h]
  · have hs := TLRUCache.get_hit_stable st.cache now (.kid id) inst c1 h
    cases hq : c1.get now (.kid id) with
    | mk fst snd =>
      rw [hq] at hs
      subst hs
      refine ⟨{ st with cache := snd }, ?_, rfl⟩
      unfold cachedGetById
      rw [show ({ st with cache := c1 } : PState).cache = c1 from rfl, hq]

/-- Witness for C2: a cache holding `instBob` under id 7, queried at time
5 (within the 30-second ttu). -/
theorem cached_get_by_id_hit_identity_witness :
    cachedGetById .character "character_id" (mkBuild "character_id") 5 none
        (fun _ => []) 7 stHit = .ok (some instBob, { stHit with cache := cHit1 }) ∧
    ({ stHit with cache := cHit1 } : PState).execCalls = stHit.execCalls ∧
    (∃ st2, cachedGetById .character "character_id" (mkBuild "character_id")
        5 none (fun _ => []) 7 { stHit with cache := cHit1 }
        = .ok (some instBob, st2) ∧
      st2.execCalls = stHit.execCalls) :=
  cached_get_by_id_hit_identity .character "character_id"
    (mkBuild "character_id") 5 none (fun _ => []) 7 stHit instBob cHit1 rfl

/-! ## C10 — locale-less construction registers no name key -/

/-- C10: a `Named` entity constructed without a locale (as every entity
obtained through `get_by_id`/`find`/`get` is) is registered only under its
numeric id: the cache gains no by-name key, and as long as the cache held
no by-name key beforehand, any subsequent successful `get_by_name` misses
the cache and costs exactly one Request Executor invocation. -/
theorem named_init_without_locale_id_only (cls : PyClass) (idField : String)
    (build : BuildFn) (now : Nat) (data : Payload) (st : PState)
    (inst : Instance) (st' : PState)
    (h : namedInit cls idField build now none data st = .ok (inst, st'))
    (hn : hasNameKey st.cache = false) :
    st'.cache = st.cache.add now (.kid inst.id) inst ∧
    hasNameKey st'.cache = false ∧
    (∀ now2 exec name locale r st2,
      namedGetByName cls idField build now2 exec name locale st' = .ok (r, st2) →
      st2.execCalls = st'.execCalls + 1) := by
  have hc : cachedInit cls idField build now data st = .ok (inst, st') := by
    cases hco : cachedInit cls idField build now data st with
    | error e => simp [namedInit, hco] at h
    | ok p =>
      obtain ⟨i1, s1⟩ := p
      simp only [namedInit, hco, Except.ok.injEq, Prod.mk.injEq] at h
      rw [h.1, h.2]
  obtain ⟨r, ho, hinst, hst⟩ := cachedInit_ok_elim hc
  have hcache : st'.cache = st.cache.add now (.kid inst.id) inst := by
    rw [hst, hinst]
  have hname : hasNameKey st'.cache = false := by
    rw [hcache]
    exact hasNameKey_add_kid st.cache now inst.id inst hn
  refine ⟨hcache, hname, ?_⟩
  intro now2 exec name locale r2 st2 hg
  have hmiss :
      st'.cache.get now2 (.kname (locale ++ "_" ++ lowerStr name))
        = (none, st'.cache) :=
    get_kname_none st'.cache now2 (locale ++ "_" ++ lowerStr name) hname
  cases he : exec name with
  | nil =>
    simp only [namedGetByName, hmiss, he, Except.ok.injEq, Prod.mk.injEq] at hg
    rw [← hg.2]
  | cons p rest =>
    simp only [namedGetByName, hmiss, he] at hg
    cases hni : namedInit cls idField build now2 (some locale) p
        { st' with cache := st'.cache, execCalls := st'.execCalls + 1 } with
    | error e => rw [hni] at hg; simp at hg
    | ok q =>
      obtain ⟨i2, s2⟩ := q
      rw [hni] at hg
      simp only [Except.ok.injEq, Prod.mk.injEq] at hg
      rw [← hg.2]
      exact namedInit_execCalls hni

/-- Witness for C10: the character payload `pAdmin` constructed without a
locale in the fresh state `st0`. -/
theorem named_init_without_locale_id_only_witness :
    stReg.cache = st0.cache.add 0 (.kid instAdmin0.id) instAdmin0 ∧
    hasNameKey stReg.cache = false ∧
    (∀ now2 exec name locale r st2,
      namedGetByName .character "character_id" (mkBuild "character_id")
        now2 exec name locale stReg = .ok (r, st2) →
      st2.execCalls = stReg.execCalls + 1) :=
  named_init_without_locale_id_only .character "character_id"
    (mkBuild "character_id") 0 pAdmin st0 instAdmin0 stReg rfl rfl

/-! ## C1 — fallback precedence in `Ps2Object.get_by_id` -/

/-- C1: for a type with a fallback table holding id 1 only, `get_by_id(2)`
whose live query returns a match for id 2 yields `None` — the live
construction happened (the by-id `find` produced `instLive` and registered
it, one executor call), but the result is dropped because the `elif
results` branch of the source is only reachable when the type declares no
fallback table. -/
theorem get_by_id_fallback_drops_live_result :
    findById .character "character_id" (mkBuild "character_id") 0 [pLive] st0
      = .ok ([instLive], stC1) ∧
    psGetById .character "character_id" (mkBuild "character_id") 0
      (some [(1, pFall)]) (fun _ => [pLive]) 2 st0
      = .ok (none, stC1) :=
  ⟨rfl, rfl⟩

/-! ## C3 — by-name cache keying in `Character.get_by_name` -/

/-- C3: on the `Character` override of `get_by_name`, the scenario
`get_by_name("Admin", locale="en")` then `get_by_name("admin",
locale="en")` does *not* make the second call a cache hit: the lookup key
is `'_' + name.lower()` (no locale) while the construction registers no
name key at all, so both calls reach the Request Executor
(`execCalls = 2`) and the second call returns a freshly constructed
object, not the first instance. -/
theorem character_get_by_name_second_call_misses :
    characterGetByName "character_id" (mkBuild "character_id") 0
      (fun _ => [pAdmin]) "Admin" "en" st0 = .ok (some instAdmin0, stC3a) ∧
    characterGetByName "character_id" (mkBuild "character_id") 0
      (fun _ => [pAdmin]) "admin" "en" stC3a = .ok (some instAdmin1, stC3b) ∧
    stC3b.execCalls = 2 ∧
    instAdmin1 ≠ instAdmin0 ∧
    hasNameKey stC3a.cache = false :=
  ⟨rfl, rfl, rfl, by decide, rfl⟩

end Auraxium
